import Mathlib

/-!
# World Radio player and radio relay

A shallow embedding of `src/components/WorldRadioPlayer.jsx` (the React component holding the
player's session state) and `src/pages/api/radio.js` (the relay endpoint), followed by the
properties of the specification that were checked against them.

Conventions of the embedding:

* a JavaScript string is a Lean `String`; `includes`, `startsWith`, `endsWith` and `===` are the
  substring, prefix, suffix and equality tests on its characters (on well-formed strings the
  tests on UTF-16 code units and on characters agree);
* `String.prototype.toLowerCase` is a parameter `lower : String → String`; the only facts used
  about it are that it maps the empty string to the empty string and a non-empty string to a
  non-empty one;
* a field that may be `undefined`/`null` is an `Option`;
* React state is an explicit record `Session`; a handler is a function `Session → Session`, the
  `useEffect` bodies are applied right after the state change that triggers them;
* the promise returned by `audio.play()` is an entry of `Session.pending`; its settlement is the
  separate step `settle`.
-/

namespace WorldRadio

/-! ## JavaScript string primitives -/

/-- JavaScript truthiness of a string: every string but the empty one is truthy. -/
def truthy (s : String) : Bool := s != ""

/-- Model of `h.includes(n)`: `n` occurs in `h` as a contiguous block. -/
def includes (h n : String) : Bool := decide (n.data <:+: h.data)

/-- Model of `s.startsWith(p)`. -/
def startsWith (s p : String) : Bool := decide (p.data <+: s.data)

/-- Model of `s.endsWith(p)`. -/
def endsWith (s p : String) : Bool := decide (p.data <:+ s.data)

/-! ## Data model -/

/-- A record of the array returned by `/json/stations/topvote/<n>`, with the fields the
component reads. -/
structure Station where
  stationuuid : String
  name : String
  country : String
  tags : Option String
  url : Option String
  url_resolved : Option String
  favicon : Option String
  stationcount : Option Int
  deriving DecidableEq, Repr

/-! ## `filterStations` (WorldRadioPlayer.jsx, lines 70-88) -/

/-- The callback of the first `filter` of `filterStations`:
`name.toLowerCase().includes(t) || country.toLowerCase().includes(t) ||
 (tags && tags.toLowerCase().includes(t))` with `t = searchTerm.toLowerCase()`. -/
def matchesSearch (lower : String → String) (searchTerm : String) (station : Station) : Bool :=
  includes (lower station.name) (lower searchTerm) ||
  includes (lower station.country) (lower searchTerm) ||
  (match station.tags with
   | some t => truthy t && includes (lower t) (lower searchTerm)
   | none => false)

/-- The callback of the second `filter` of `filterStations`:
`country.toLowerCase() === filterCountry.toLowerCase()`. -/
def matchesCountry (lower : String → String) (filterCountry : String) (station : Station) : Bool :=
  lower station.country == lower filterCountry

/-- The list `filterStations` passes to `setFilteredStations`. -/
def filterStations (lower : String → String) (stations : List Station)
    (searchTerm filterCountry : String) : List Station :=
  let filtered := stations
  let filtered :=
    if truthy searchTerm then filtered.filter (matchesSearch lower searchTerm) else filtered
  let filtered :=
    if truthy filterCountry then filtered.filter (matchesCountry lower filterCountry) else filtered
  filtered

/-- The visibility predicate in the words of the specification: the lowered search term is a
substring of the lowered name, country or tags (absent tags read as the empty string), and the
country filter is empty or equals the country up to case. -/
def specVisible (lower : String → String) (s c : String) (st : Station) : Bool :=
  (includes (lower st.name) (lower s) ||
   includes (lower st.country) (lower s) ||
   includes (lower (st.tags.getD "")) (lower s)) &&
  (c == "" || lower st.country == lower c)

/-- The search part of `specVisible` alone. -/
def specMatches (lower : String → String) (s : String) (st : Station) : Bool :=
  includes (lower st.name) (lower s) ||
  includes (lower st.country) (lower s) ||
  includes (lower (st.tags.getD "")) (lower s)

/-- A lowering that only touches the ASCII letters; used to instantiate `lower`. -/
def asciiLower (s : String) : String := ⟨s.data.map Char.toLower⟩

/-! ## Directory client (WorldRadioPlayer.jsx, lines 34-68) -/

/-- The callback of `data.filter` in `fetchPopularStations`:
`s.url_resolved?.startsWith('https://') && !s.url_resolved.endsWith('.m3u') &&
 !s.url_resolved.endsWith('.pls')`; an absent `url_resolved` makes the optional chain
`undefined`, which `filter` reads as false. -/
def isValidStation (s : Station) : Bool :=
  match s.url_resolved with
  | none => false
  | some u => startsWith u "https://" && !endsWith u ".m3u" && !endsWith u ".pls"

/-- The constant `validStations` of `fetchPopularStations`. -/
def validStations (data : List Station) : List Station :=
  data.filter isValidStation

/-- The callback of `data.filter` in `fetchCountries`: `c.stationcount > 0`; the comparison of
`undefined` with a number is false. -/
def hasStations (c : Station) : Bool :=
  match c.stationcount with
  | none => false
  | some n => decide (n > 0)

/-- The number read by the comparator of `fetchCountries`. It is only called on records that
passed `hasStations`, whose `stationcount` is present. -/
def countOf (c : Station) : Int := c.stationcount.getD 0

/-- The comparator of `fetchCountries`: `(a, b) => b.stationcount - a.stationcount`. -/
def compareCount (a b : Station) : Int := countOf b - countOf a

/-- Model of `Array.prototype.sort(compareFn)`: a stable sort that puts `a` before `b` when
`compareFn(a, b) < 0` and keeps the order of the input when `compareFn(a, b) = 0`. -/
def sortBy {α : Type} (compareFn : α → α → Int) (l : List α) : List α :=
  l.insertionSort (fun a b => compareFn a b ≤ 0)

/-- The constant `sortedCountries` of `fetchCountries`:
`data.filter(c => c.stationcount > 0).sort(...).slice(0, 50)`. -/
def sortedCountries (data : List Station) : List Station :=
  ((data.filter hasStations) |> sortBy compareCount).take 50

/-! ## Session state (WorldRadioPlayer.jsx, lines 5-17) -/

/-- How the promise returned by `audio.play()` settles. -/
inductive Outcome where
  | resolved
  | rejected
  deriving DecidableEq, Repr

/-- The `useState` cells of the component, the audio element behind `audioRef`, and the
`play()` promises that have not settled yet. -/
structure Session where
  stations : List Station
  filteredStations : List Station
  currentStation : Option Station
  isPlaying : Bool
  volume : ℚ
  isMuted : Bool
  searchTerm : String
  loading : Bool
  favorites : List Station
  filterCountry : String
  countries : List Station
  /-- Whether `audioRef.current` is the mounted audio element. -/
  audioRef : Bool
  /-- The `volume` property of the audio element. -/
  audioVolume : ℚ
  /-- The `src` property of the audio element. -/
  audioSrc : Option String
  /-- The `stationuuid` of each `play()` promise still in flight, oldest first. -/
  pending : List String

/-- The session once the component is mounted: the `useState` initial values, the audio element
attached, and the volume effect run once. -/
def initialSession : Session where
  stations := []
  filteredStations := []
  currentStation := none
  isPlaying := false
  volume := 7 / 10
  isMuted := false
  searchTerm := ""
  loading := true
  favorites := []
  filterCountry := ""
  countries := []
  audioRef := true
  audioVolume := 7 / 10
  audioSrc := none
  pending := []

/-! ## Effects (WorldRadioPlayer.jsx, lines 24-32) -/

/-- The value written by the volume effect: `isMuted ? 0 : volume`. -/
def effectiveVolume (s : Session) : ℚ := if s.isMuted then 0 else s.volume

/-- The effect on `[volume, isMuted]`:
`if (audioRef.current) audioRef.current.volume = isMuted ? 0 : volume`. -/
def volumeEffect (s : Session) : Session :=
  if s.audioRef then { s with audioVolume := effectiveVolume s } else s

/-- The effect on `[searchTerm, filterCountry, stations]`, which calls `filterStations`. -/
def filterEffect (lower : String → String) (s : Session) : Session :=
  { s with filteredStations := filterStations lower s.stations s.searchTerm s.filterCountry }

/-! ## Handlers -/

/-- The slider's `onChange`: `setVolume(parseFloat(e.target.value))`, then the volume effect. -/
def setVolume (s : Session) (v : ℚ) : Session :=
  volumeEffect { s with volume := v }

/-- The mute button's `onClick`: `setIsMuted(!isMuted)`, then the volume effect. -/
def toggleMute (s : Session) : Session :=
  volumeEffect { s with isMuted := !s.isMuted }

/-- The search box's `onChange`: `setSearchTerm(e.target.value)`, then the filter effect. -/
def setSearchTerm (lower : String → String) (s : Session) (t : String) : Session :=
  filterEffect lower { s with searchTerm := t }

/-- The country select's `onChange`: `setFilterCountry(e.target.value)`, then the filter
effect. -/
def setFilterCountry (lower : String → String) (s : Session) (c : String) : Session :=
  filterEffect lower { s with filterCountry := c }

/-- The state change of `fetchPopularStations` once its request is over; `response` is `none`
when `fetch` or `response.json()` throws (the `catch` branch). -/
def fetchPopularStations (lower : String → String) (response : Option (List Station))
    (s : Session) : Session :=
  match response with
  | some data =>
    filterEffect lower
      { s with stations := validStations data
               filteredStations := validStations data
               loading := false }
  | none => { s with loading := false }

/-- The state change of `fetchCountries` once its request is over; `response` is `none` when
`fetch` or `response.json()` throws (the `catch` branch, which only logs). -/
def fetchCountries (response : Option (List Station)) (s : Session) : Session :=
  match response with
  | some data => { s with countries := sortedCountries data }
  | none => s

/-- The test of `playStation`:
`currentStation?.stationuuid === station.stationuuid && isPlaying`. -/
def isCurrentAndPlaying (s : Session) (station : Station) : Bool :=
  (match s.currentStation with
   | some cur => cur.stationuuid == station.stationuuid
   | none => false) && s.isPlaying

/-- The value of `station.url_resolved || station.url`. -/
def streamUrl (station : Station) : Option String :=
  match station.url_resolved with
  | some u => if truthy u then some u else station.url
  | none => station.url

/-- The synchronous part of `playStation` (lines 90-116). In the pause branch
`audioRef.current.pause()` throws when no element is attached, before `setIsPlaying(false)`
runs, and the state stays as it was. In the other branch the new `play()` promise is appended
to `pending`; the click-count `fetch` touches no state. -/
def playStation (s : Session) (station : Station) : Session :=
  if isCurrentAndPlaying s station then
    if s.audioRef then { s with isPlaying := false } else s
  else
    let s := { s with currentStation := some station }
    if s.audioRef then
      { s with audioSrc := streamUrl station
               pending := s.pending ++ [station.stationuuid] }
    else s

/-- The continuation of the `i`-th pending `play()` promise: `.then(() => setIsPlaying(true))`
when it resolves, `.catch(... setIsPlaying(false))` (after the alert) when it rejects. Neither
callback looks at which station the promise was started for. -/
def settle (s : Session) (i : Nat) (o : Outcome) : Session :=
  if i < s.pending.length then
    { s with pending := s.pending.eraseIdx i
             isPlaying := (match o with
                           | Outcome.resolved => true
                           | Outcome.rejected => false) }
  else s

/-- The `onError` of the audio element (lines 274-280): `setIsPlaying(false)`. -/
def audioError (s : Session) : Session :=
  { s with isPlaying := false }

/-- The handler `toggleFavorite` (lines 118-127) with its updater applied to the current
favorites. -/
def toggleFavorite (s : Session) (station : Station) : Session :=
  { s with favorites :=
      let prev := s.favorites
      let isFav := prev.any (fun fav => fav.stationuuid == station.stationuuid)
      if isFav then prev.filter (fun fav => fav.stationuuid != station.stationuuid)
      else prev ++ [station] }

/-- The ids of the favourites. -/
def favoriteIds (s : Session) : List String := s.favorites.map (fun fav => fav.stationuuid)

/-- One call of `playStation` followed, when that call started a `play()` promise, by the
settlement `o` of that promise. -/
def playAndSettle (s : Session) (station : Station) (o : Outcome) : Session :=
  let s1 := playStation s station
  if s.pending.length < s1.pending.length then settle s1 (s1.pending.length - 1) o else s1

/-! ## The session as a transition system -/

/-- Everything that can change the session: the controller operations and the asynchronous
results. -/
inductive Event where
  | play (station : Station)
  | settled (i : Nat) (o : Outcome)
  | audioError
  | setSearchTerm (t : String)
  | setFilterCountry (c : String)
  | toggleFavorite (station : Station)
  | setVolume (v : ℚ)
  | toggleMute
  | stationsFetched (response : Option (List Station))
  | countriesFetched (response : Option (List Station))

/-- The session after one event. -/
def step (lower : String → String) (s : Session) : Event → Session
  | Event.play station => playStation s station
  | Event.settled i o => settle s i o
  | Event.audioError => audioError s
  | Event.setSearchTerm t => setSearchTerm lower s t
  | Event.setFilterCountry c => setFilterCountry lower s c
  | Event.toggleFavorite station => toggleFavorite s station
  | Event.setVolume v => setVolume s v
  | Event.toggleMute => toggleMute s
  | Event.stationsFetched response => fetchPopularStations lower response s
  | Event.countriesFetched response => fetchCountries response s

/-- The session after a sequence of events, oldest first. -/
def run (lower : String → String) (s : Session) (events : List Event) : Session :=
  events.foldl (step lower) s

/-! ## The relay (radio.js) -/

/-- What `fetch` resolves to: the status line and the body text of the upstream reply. -/
structure UpstreamResponse where
  status : Nat
  body : String
  deriving DecidableEq, Repr

/-- A `Response` built by the relay: the `status` and `headers` of its init and its body. -/
structure Response where
  status : Nat
  headers : List (String × String)
  body : String
  deriving DecidableEq, Repr

/-- What one call of `GET` does: the response it returns and the URLs it passed to `fetch`. -/
structure RelayResult where
  response : Response
  fetched : List String
  deriving DecidableEq, Repr

/-- The host the relay forwards to. -/
def upstreamBase : String := "https://de1.api.radio-browser.info"

/-- The response of the `catch` branch; its body is `JSON.stringify({ error: 'Failed to fetch' })`. -/
def failedResponse : Response where
  status := 500
  headers := [("Content-Type", "application/json")]
  body := "\x7b\"error\":\"Failed to fetch\"\x7d"

/-- The handler `GET` of `radio.js`. `endpoint` is the value of
`url.searchParams.get('endpoint')` (`none` for `null`). The environment is `fetch`, which gives
`none` when the request rejects, `parse`, which is `response.json()` and gives `none` when the body
is not JSON, and `stringify`, which is `JSON.stringify`. -/
def GET {J : Type} (fetch : String → Option UpstreamResponse) (parse : String → Option J)
    (stringify : J → String) (endpoint : Option String) : RelayResult :=
  match endpoint with
  | none => ⟨⟨400, [], "Missing endpoint parameter"⟩, []⟩
  | some e =>
    if !truthy e then ⟨⟨400, [], "Missing endpoint parameter"⟩, []⟩
    else
      let target := upstreamBase ++ e
      match fetch target with
      | none => ⟨failedResponse, [target]⟩
      | some response =>
        match parse response.body with
        | none => ⟨failedResponse, [target]⟩
        | some data =>
          ⟨⟨200, [("Content-Type", "application/json"), ("Access-Control-Allow-Origin", "*")],
             stringify data⟩, [target]⟩

/-! ## Sample data -/

/-- A station with a secure direct stream. -/
def jazzFm : Station where
  stationuuid := "uuid-jazz"
  name := "Jazz FM"
  country := "France"
  tags := some "jazz,swing"
  url := some "http://jazz.example.org/live"
  url_resolved := some "https://stream.example.org/live.mp3"
  favicon := none
  stationcount := none

/-- A station without tags whose resolved URL is a playlist served over plain http. -/
def newsOne : Station where
  stationuuid := "uuid-news"
  name := "News One"
  country := "Germany"
  tags := none
  url := some "http://news.example.org/listen.pls"
  url_resolved := some "http://news.example.org/listen.pls"
  favicon := none
  stationcount := none

/-- A batch of fifty records, ten of which have a resolved URL that is not a secure direct
stream. -/
def fiftyStations : List Station :=
  List.replicate 40 jazzFm ++ List.replicate 10 newsOne

/-- A third station, with a secure direct stream. -/
def rockFm : Station where
  stationuuid := "uuid-rock"
  name := "Rock FM"
  country := "Spain"
  tags := some "rock"
  url := some "https://rock.example.org/stream"
  url_resolved := some "https://rock.example.org/stream"
  favicon := none
  stationcount := none

/-- A record with a station count. -/
def countryRecord (name : String) (stationcount : Int) : Station where
  stationuuid := name
  name := name
  country := name
  tags := none
  url := none
  url_resolved := none
  favicon := none
  stationcount := some stationcount

/-- A batch of fifty-one records with a positive station count; the first has the smallest. -/
def fiftyOneCountries : List Station :=
  countryRecord "B" 1 :: List.replicate 50 (countryRecord "A" 3)

/-- The session in which `jazzFm` is playing: it was played from the initial session and its
`play()` promise resolved. -/
def jazzPlaying : Session := playAndSettle initialSession jazzFm Outcome.resolved

/-- A `fetch` whose reply has the status `k` and the body `[]`, whatever the URL. -/
def replyWith (k : Nat) : String → Option UpstreamResponse :=
  fun _ => some ⟨k, "[]"⟩

/-- A decoder for the examples: the only text it accepts is `[]`, decoded to the empty list. -/
def parseEmptyArray (body : String) : Option (List Nat) :=
  if body = "[]" then some [] else none

/-- The encoder that goes with `parseEmptyArray`. -/
def stringifyList (data : List Nat) : String :=
  match data with
  | [] => "[]"
  | _ => "[...]"

/-! ## Lemmas on the string primitives -/

theorem truthy_eq_false_iff (s : String) : truthy s = false ↔ s = "" := by
  simp [truthy]

theorem truthy_eq_true_iff (s : String) : truthy s = true ↔ s ≠ "" := by
  simp [truthy]

theorem includes_empty (h : String) : includes h "" = true := by
  simp [includes]

theorem includes_in_empty (n : String) (hn : n ≠ "") : includes "" n = false := by
  have : n.data ≠ [] := fun h => hn (String.ext h)
  simp [includes, this]

theorem asciiLower_empty : asciiLower "" = "" := rfl

theorem asciiLower_ne_empty (s : String) (h : s ≠ "") : asciiLower s ≠ "" := by
  intro h'
  apply h
  have h2 : (asciiLower s).data = [] := by rw [h']
  simp [asciiLower] at h2
  exact String.ext h2

/-! ## Properties of `filterStations` -/

theorem matchesSearch_eq_specMatches (lower : String → String)
    (h0 : lower "" = "") (h1 : ∀ s, s ≠ "" → lower s ≠ "")
    (s : String) (hs : s ≠ "") (st : Station) :
    matchesSearch lower s st = specMatches lower s st := by
  unfold matchesSearch specMatches
  congr 1
  cases ht : st.tags with
  | none => simp [h0, includes_in_empty _ (h1 s hs)]
  | some t =>
    by_cases hte : t = ""
    · subst hte
      simp [truthy, h0, includes_in_empty _ (h1 s hs)]
    · simp [truthy, hte]

theorem specMatches_empty (lower : String → String) (h0 : lower "" = "") (st : Station) :
    specMatches lower "" st = true := by
  simp [specMatches, h0, includes_empty]

theorem filterStations_eq_filter (lower : String → String)
    (h0 : lower "" = "") (h1 : ∀ s, s ≠ "" → lower s ≠ "")
    (S : List Station) (s c : String) :
    filterStations lower S s c = S.filter (specVisible lower s c) := by
  have hsearch : (if truthy s then S.filter (matchesSearch lower s) else S)
      = S.filter (specMatches lower s) := by
    by_cases hs : s = ""
    · subst hs
      have : ∀ st ∈ S, specMatches lower "" st = true := fun st _ => specMatches_empty lower h0 st
      simp [truthy, List.filter_eq_self.mpr this]
    · have : matchesSearch lower s = specMatches lower s :=
        funext (matchesSearch_eq_specMatches lower h0 h1 s hs)
      simp [truthy, hs, this]
  unfold filterStations
  simp only [hsearch]
  by_cases hc : c = ""
  · subst hc
    have ht : truthy "" = false := rfl
    simp only [ht]
    apply List.filter_congr
    intro st _
    simp [specVisible, specMatches]
  · have ht : truthy c = true := (truthy_eq_true_iff c).mpr hc
    have hb : (c == "") = false := by simp [hc]
    simp only [ht, if_true, List.filter_filter]
    apply List.filter_congr
    intro st _
    simp [specVisible, specMatches, matchesCountry, hb, Bool.and_comm]

/-! ## Lemmas on the validity filter -/

theorem isValidStation_iff (st : Station) :
    isValidStation st = true ↔
      ∃ u, st.url_resolved = some u ∧ "https://".data <+: u.data ∧
        ¬ ".m3u".data <:+ u.data ∧ ¬ ".pls".data <:+ u.data := by
  unfold isValidStation
  cases h : st.url_resolved with
  | none => simp
  | some u => simp [startsWith, endsWith, and_assoc]

theorem not_https_of_http (u : String) (h : "http://".data <+: u.data) :
    ¬ "https://".data <+: u.data := by
  intro h'
  obtain ⟨t, ht⟩ := h
  obtain ⟨t', ht'⟩ := h'
  rw [← ht] at ht'
  have e1 : ("http://" : String).data = ['h', 't', 't', 'p', ':', '/', '/'] := rfl
  have e2 : ("https://" : String).data = ['h', 't', 't', 'p', 's', ':', '/', '/'] := rfl
  rw [e1, e2] at ht'
  simp at ht'

theorem length_validStations (data : List Station) :
    (validStations data).length + (data.filter (fun st => !isValidStation st)).length
      = data.length := by
  unfold validStations
  induction data with
  | nil => rfl
  | cons a l ih =>
    cases h : isValidStation a <;> simp [List.filter_cons, h] <;> omega

/-! ## C1: the visible list -/

/-- C1: for every lowering that keeps the empty string empty and a non-empty string non-empty
(as `toLowerCase` does), every station list `S`, search term `s` and country filter `c`, the
list computed by `filterStations` is the order-preserving sublist of `S` of the stations that
satisfy the specification's predicate (search term found in name, country or tags, absent tags
read as empty; and country filter empty or equal to the country up to case); for `c = ""` it is
the list of the stations matched by the search term; the result is a sublist of `S`, so each of
its stations is in `S`. -/
theorem filterStations_is_spec_filter (lower : String → String)
    (h0 : lower "" = "") (h1 : ∀ s, s ≠ "" → lower s ≠ "")
    (S : List Station) (s c : String) :
    filterStations lower S s c = S.filter (specVisible lower s c) ∧
    filterStations lower S s "" = S.filter (specMatches lower s) ∧
    List.Sublist (filterStations lower S s c) S ∧
    (∀ st, st ∈ filterStations lower S s c ↔ st ∈ S ∧ specVisible lower s c st = true) := by
  have h := filterStations_eq_filter lower h0 h1 S
  refine ⟨h s c, ?_, ?_, ?_⟩
  · rw [h s ""]
    apply List.filter_congr
    intro st _
    simp [specVisible, specMatches]
  · rw [h s c]
    exact List.filter_sublist S
  · intro st
    rw [h s c, List.mem_filter]

/-- Witness of C1 with the ASCII lowering on two stations: the term `JAZZ` keeps the station
tagged `jazz,swing` and drops the station without tags. -/
theorem filterStations_is_spec_filter_witness :
    asciiLower "" = "" ∧
    filterStations asciiLower [jazzFm, newsOne] "JAZZ" "france" = [jazzFm] ∧
    [jazzFm, newsOne].filter (specVisible asciiLower "JAZZ" "france") = [jazzFm] ∧
    List.Sublist (filterStations asciiLower [jazzFm, newsOne] "JAZZ" "france")
      [jazzFm, newsOne] :=
  ⟨rfl, by decide, by decide,
    (filterStations_is_spec_filter asciiLower asciiLower_empty asciiLower_ne_empty
      [jazzFm, newsOne] "JAZZ" "france").2.2.1⟩

/-! ## C2: the validity filter -/

/-- C2: the stations stored by `fetchPopularStations` are the fetched records that pass the
validity filter, in order; a record passes if and only if its resolved URL is present, starts
with `https://` and ends neither in `.m3u` nor in `.pls`; a resolved URL that starts with
`http://` or ends in `.m3u` or `.pls` is rejected; `https://stream.example.org/live.mp3` is
accepted; the number of stations kept plus the number of records rejected is the number of
records fetched, so fifty records of which ten are rejected leave forty. -/
theorem fetchPopularStations_keeps_valid (lower : String → String) (data : List Station)
    (s : Session) :
    (fetchPopularStations lower (some data) s).stations = data.filter isValidStation ∧
    (∀ st, isValidStation st = true ↔
      ∃ u, st.url_resolved = some u ∧ "https://".data <+: u.data ∧
        ¬ ".m3u".data <:+ u.data ∧ ¬ ".pls".data <:+ u.data) ∧
    (∀ st, st ∈ (fetchPopularStations lower (some data) s).stations ↔
      st ∈ data ∧ isValidStation st = true) ∧
    (∀ st u, st.url_resolved = some u →
      ("http://".data <+: u.data ∨ ".m3u".data <:+ u.data ∨ ".pls".data <:+ u.data) →
      isValidStation st = false) ∧
    (∀ st, st.url_resolved = some "https://stream.example.org/live.mp3" →
      isValidStation st = true) ∧
    (fetchPopularStations lower (some data) s).stations.length
      + (data.filter (fun st => !isValidStation st)).length = data.length ∧
    (data.length = 50 → (data.filter (fun st => !isValidStation st)).length = 10 →
      (fetchPopularStations lower (some data) s).stations.length = 40) := by
  have hst : (fetchPopularStations lower (some data) s).stations = data.filter isValidStation :=
    rfl
  have hlen := length_validStations data
  unfold validStations at hlen
  refine ⟨hst, isValidStation_iff, ?_, ?_, ?_, ?_, ?_⟩
  · intro st
    rw [hst, List.mem_filter]
  · intro st u hu hbad
    cases hv : isValidStation st with
    | false => rfl
    | true =>
      obtain ⟨u', hu', hp, hm, hl⟩ := (isValidStation_iff st).mp hv
      rw [hu] at hu'
      cases hu'
      rcases hbad with hb | hb | hb
      · exact absurd hp (not_https_of_http u hb)
      · exact absurd hb hm
      · exact absurd hb hl
  · intro st hu
    unfold isValidStation
    rw [hu]
    decide
  · rw [hst]
    exact hlen
  · intro h50 h10
    rw [hst]
    omega

/-- Witness of C2: of the fifty sample records, ten have a plain-http playlist URL, and forty
stations are stored. -/
theorem fetchPopularStations_keeps_valid_witness :
    fiftyStations.length = 50 ∧
    (fiftyStations.filter (fun st => !isValidStation st)).length = 10 ∧
    (fetchPopularStations asciiLower (some fiftyStations) initialSession).stations.length = 40 :=
  ⟨by decide, by decide,
    (fetchPopularStations_keeps_valid asciiLower fiftyStations initialSession).2.2.2.2.2.2
      (by decide) (by decide)⟩

/-! ## Lemmas on the favourites -/

theorem mem_favoriteIds_toggleFavorite (s : Session) (st : Station) (id : String) :
    id ∈ favoriteIds (toggleFavorite s st) ↔
      (if id = st.stationuuid then id ∉ favoriteIds s else id ∈ favoriteIds s) := by
  unfold favoriteIds toggleFavorite
  simp only
  by_cases hfav : s.favorites.any (fun fav => fav.stationuuid == st.stationuuid) = true
  · rw [if_pos hfav]
    simp only [List.any_eq_true, beq_iff_eq] at hfav
    obtain ⟨f, hf, hfe⟩ := hfav
    by_cases hid : id = st.stationuuid
    · subst hid
      simp only [if_true, List.mem_map, List.mem_filter, bne_iff_ne, ne_eq]
      constructor
      · rintro ⟨a, ⟨_, hne⟩, ha⟩
        exact absurd ha hne
      · intro h
        exact absurd ⟨f, hf, hfe⟩ h
    · simp only [if_neg hid, List.mem_map, List.mem_filter, bne_iff_ne, ne_eq]
      constructor
      · rintro ⟨a, ⟨ha, _⟩, rfl⟩
        exact ⟨a, ha, rfl⟩
      · rintro ⟨a, ha, rfl⟩
        exact ⟨a, ⟨ha, hid⟩, rfl⟩
  · rw [if_neg hfav]
    simp only [List.any_eq_true, beq_iff_eq, not_exists, not_and] at hfav
    by_cases hid : id = st.stationuuid
    · subst hid
      simp only [if_true, List.map_append, List.map_cons, List.map_nil, List.mem_append,
        List.mem_singleton, or_true, true_iff, List.mem_map, not_exists, not_and]
      exact hfav
    · simp [if_neg hid, hid]

/-! ## C7: favourites -/

/-- C7: for every session and every station `st`, after two calls of `toggleFavorite st` the
set of favourite ids is the set before the calls; one call flips the membership of the id of
`st` and leaves the membership of every other id as it was. -/
theorem toggleFavorite_twice_same_ids (s : Session) (st : Station) :
    (∀ id, id ∈ favoriteIds (toggleFavorite (toggleFavorite s st) st) ↔ id ∈ favoriteIds s) ∧
    (favoriteIds (toggleFavorite (toggleFavorite s st) st)).toFinset
      = (favoriteIds s).toFinset ∧
    (st.stationuuid ∈ favoriteIds (toggleFavorite s st) ↔ st.stationuuid ∉ favoriteIds s) ∧
    (∀ id, id ≠ st.stationuuid →
      (id ∈ favoriteIds (toggleFavorite s st) ↔ id ∈ favoriteIds s)) := by
  have h2 : ∀ id, id ∈ favoriteIds (toggleFavorite (toggleFavorite s st) st) ↔
      id ∈ favoriteIds s := by
    intro id
    rw [mem_favoriteIds_toggleFavorite, mem_favoriteIds_toggleFavorite]
    by_cases hid : id = st.stationuuid <;> simp [hid]
  refine ⟨h2, ?_, ?_, ?_⟩
  · ext id
    simp only [List.mem_toFinset]
    exact h2 id
  · rw [mem_favoriteIds_toggleFavorite]
    simp
  · intro id hid
    rw [mem_favoriteIds_toggleFavorite]
    simp [hid]

/-- Witness of C7: a station is added to the favourites of the initial session and removed by
the second call, while another favourite stays. -/
theorem toggleFavorite_twice_same_ids_witness :
    favoriteIds (toggleFavorite initialSession newsOne) = ["uuid-news"] ∧
    favoriteIds (toggleFavorite (toggleFavorite initialSession newsOne) jazzFm)
      = ["uuid-news", "uuid-jazz"] ∧
    ("uuid-news" ∈ favoriteIds
        (toggleFavorite (toggleFavorite (toggleFavorite initialSession newsOne) jazzFm) jazzFm)
      ↔ "uuid-news" ∈ favoriteIds (toggleFavorite initialSession newsOne)) :=
  ⟨by decide, by decide,
    (toggleFavorite_twice_same_ids (toggleFavorite initialSession newsOne) jazzFm).1
      "uuid-news"⟩

/-! ## C9: volume and mute -/

/-- C9: in every session the effective volume is `isMuted ? 0 : volume`, and `toggleMute`
leaves the stored volume as it was; from an unmuted session and for `v` in `[0, 1]`,
`setVolume v` makes the effective volume `v`, a first `toggleMute` makes it `0` and a second
makes it `v` again, the stored volume being `v` throughout; with the audio element attached
the effective volume is the volume written to the element after every change of the volume or
of the mute flag, so the element's volume is `v`, then `0`, then `v`. -/
theorem mute_restores_volume (s : Session) (v : ℚ) (hv0 : 0 ≤ v) (hv1 : v ≤ 1)
    (hm : s.isMuted = false) :
    (∀ t : Session, effectiveVolume t = if t.isMuted then 0 else t.volume) ∧
    (∀ t : Session, (toggleMute t).volume = t.volume) ∧
    (effectiveVolume (setVolume s v) = v ∧
      effectiveVolume (toggleMute (setVolume s v)) = 0 ∧
      effectiveVolume (toggleMute (toggleMute (setVolume s v))) = v) ∧
    ((setVolume s v).volume = v ∧
      (toggleMute (setVolume s v)).volume = v ∧
      (toggleMute (toggleMute (setVolume s v))).volume = v) ∧
    (∀ t : Session, t.audioRef = true →
      (toggleMute t).audioVolume = effectiveVolume (toggleMute t) ∧
      ∀ w : ℚ, (setVolume t w).audioVolume = effectiveVolume (setVolume t w)) ∧
    (s.audioRef = true →
      (setVolume s v).audioVolume = v ∧
      (toggleMute (setVolume s v)).audioVolume = 0 ∧
      (toggleMute (toggleMute (setVolume s v))).audioVolume = v) := by
  have _ := hv0
  have _ := hv1
  have hvol : ∀ t : Session, (toggleMute t).volume = t.volume := by
    intro t
    unfold toggleMute volumeEffect
    split <;> rfl
  have hmute : ∀ t : Session, (toggleMute t).isMuted = !t.isMuted := by
    intro t
    unfold toggleMute volumeEffect
    split <;> rfl
  have hsv : (setVolume s v).volume = v := by
    unfold setVolume volumeEffect
    split <;> rfl
  have hsm : (setVolume s v).isMuted = false := by
    unfold setVolume volumeEffect
    split <;> exact hm
  have he1 : effectiveVolume (setVolume s v) = v := by
    simp [effectiveVolume, hsv, hsm]
  have he2 : effectiveVolume (toggleMute (setVolume s v)) = 0 := by
    simp [effectiveVolume, hmute, hsm]
  have he3 : effectiveVolume (toggleMute (toggleMute (setVolume s v))) = v := by
    simp [effectiveVolume, hmute, hvol, hsv, hsm]
  have hsink : ∀ t : Session, t.audioRef = true →
      (toggleMute t).audioVolume = effectiveVolume (toggleMute t) ∧
      ∀ w : ℚ, (setVolume t w).audioVolume = effectiveVolume (setVolume t w) := by
    intro t ht
    refine ⟨?_, fun w => ?_⟩
    · simp [toggleMute, volumeEffect, effectiveVolume, ht]
    · simp [setVolume, volumeEffect, effectiveVolume, ht]
  have hattached : ∀ t : Session, t.audioRef = true → (toggleMute t).audioRef = true ∧
      ∀ w : ℚ, (setVolume t w).audioRef = true := by
    intro t ht
    refine ⟨?_, fun w => ?_⟩
    · simp [toggleMute, volumeEffect, ht]
    · simp [setVolume, volumeEffect, ht]
  refine ⟨fun t => rfl, hvol, ⟨he1, he2, he3⟩, ⟨hsv, ?_, ?_⟩, hsink, ?_⟩
  · rw [hvol, hsv]
  · rw [hvol, hvol, hsv]
  · intro ha
    have ha1 := (hattached s ha).2 v
    have ha2 := (hattached _ ha1).1
    refine ⟨?_, ?_, ?_⟩
    · rw [(hsink s ha).2 v, he1]
    · rw [(hsink _ ha1).1, he2]
    · rw [(hsink _ ha2).1, he3]

/-- Witness of C9 at `v = 0.3` from the initial session: the element's volume is `0.3`, then
`0`, then `0.3`. -/
theorem mute_restores_volume_witness :
    (setVolume initialSession (3 / 10)).audioVolume = 3 / 10 ∧
    (toggleMute (setVolume initialSession (3 / 10))).audioVolume = 0 ∧
    (toggleMute (toggleMute (setVolume initialSession (3 / 10)))).audioVolume = 3 / 10 :=
  (mute_restores_volume initialSession (3 / 10) (by norm_num) (by norm_num) rfl).2.2.2.2.2 rfl

/-! ## Lemmas on the country ranking -/

theorem sortBy_compareCount_sorted (l : List Station) :
    (sortBy compareCount l).Pairwise (fun a b => countOf b ≤ countOf a) := by
  unfold sortBy
  have htotal : IsTotal Station (fun a b => compareCount a b ≤ 0) :=
    ⟨fun a b => by simp only [compareCount]; omega⟩
  have htrans : IsTrans Station (fun a b => compareCount a b ≤ 0) :=
    ⟨fun a b c hab hbc => by simp only [compareCount] at *; omega⟩
  have h := List.sorted_insertionSort (fun a b : Station => compareCount a b ≤ 0) l
  refine List.Pairwise.imp ?_ h
  intro a b hab
  simp only [compareCount] at hab
  omega

theorem sortBy_perm {α : Type} (compareFn : α → α → Int) (l : List α) :
    (sortBy compareFn l).Perm l :=
  List.perm_insertionSort _ l

theorem hasStations_iff (c : Station) :
    hasStations c = true ↔ ∃ n, c.stationcount = some n ∧ 0 < n := by
  unfold hasStations
  cases h : c.stationcount with
  | none => simp
  | some n => simp

/-! ## C10: the country list -/

/-- C10: for every fetched batch, the list stored by `fetchCountries` holds only records of the
batch whose station count is present and positive, is in non-increasing order of station
count, has at most fifty entries, and is the top of the ranking: together with a remainder it
is a rearrangement of the positive-count records, and every record of the remainder, as every
positive-count record of the batch that is not in the list, has a count no greater than that
of every record in the list. -/
theorem fetchCountries_top_fifty (data : List Station) (s : Session) :
    (fetchCountries (some data) s).countries = sortedCountries data ∧
    (∀ c ∈ sortedCountries data, c ∈ data ∧ ∃ n, c.stationcount = some n ∧ 0 < n) ∧
    (sortedCountries data).Pairwise (fun a b => countOf b ≤ countOf a) ∧
    (sortedCountries data).length ≤ 50 ∧
    (∃ rest, (sortedCountries data ++ rest).Perm (data.filter hasStations) ∧
      ∀ k ∈ sortedCountries data, ∀ r ∈ rest, countOf r ≤ countOf k) ∧
    (∀ r ∈ data, hasStations r = true → r ∉ sortedCountries data →
      ∀ k ∈ sortedCountries data, countOf r ≤ countOf k) := by
  have hsorted := sortBy_compareCount_sorted (data.filter hasStations)
  have hperm := sortBy_perm compareCount (data.filter hasStations)
  have hsplit : sortedCountries data ++ (sortBy compareCount (data.filter hasStations)).drop 50
      = sortBy compareCount (data.filter hasStations) := by
    unfold sortedCountries
    exact List.take_append_drop 50 _
  have hcross : ∀ k ∈ sortedCountries data,
      ∀ r ∈ (sortBy compareCount (data.filter hasStations)).drop 50,
        countOf r ≤ countOf k := by
    rw [← hsplit, List.pairwise_append] at hsorted
    exact hsorted.2.2
  refine ⟨rfl, ?_, ?_, ?_, ?_, ?_⟩
  · intro c hc
    have hc' : c ∈ data.filter hasStations :=
      hperm.subset (List.mem_of_mem_take hc)
    rw [List.mem_filter] at hc'
    exact ⟨hc'.1, (hasStations_iff c).mp hc'.2⟩
  · exact List.Pairwise.sublist (List.take_sublist 50 _) hsorted
  · unfold sortedCountries
    simp [List.length_take]
  · refine ⟨(sortBy compareCount (data.filter hasStations)).drop 50, ?_, hcross⟩
    rw [hsplit]
    exact hperm
  · intro r hr hpos hout k hk
    have hin : r ∈ sortedCountries data
        ++ (sortBy compareCount (data.filter hasStations)).drop 50 := by
      rw [hsplit]
      exact hperm.symm.subset (List.mem_filter.mpr ⟨hr, hpos⟩)
    rcases List.mem_append.mp hin with h | h
    · exact absurd h hout
    · exact hcross k hk r h

/-- Witness of C10: of fifty-one positive-count records the one with the smallest count,
although first in the batch, is left out, and its count is no greater than a count kept. -/
theorem fetchCountries_top_fifty_witness :
    (sortedCountries fiftyOneCountries).length = 50 ∧
    countryRecord "B" 1 ∉ sortedCountries fiftyOneCountries ∧
    countOf (countryRecord "B" 1) ≤ countOf (countryRecord "A" 3) :=
  ⟨by decide, by decide,
    (fetchCountries_top_fifty fiftyOneCountries initialSession).2.2.2.2.2
      (countryRecord "B" 1) (by decide) (by decide) (by decide)
      (countryRecord "A" 3) (by decide)⟩

/-! ## Lemmas on playback -/

theorem eraseIdx_append_singleton {α : Type} (l : List α) (x : α) :
    (l ++ [x]).eraseIdx l.length = l := by
  induction l with
  | nil => rfl
  | cons a l ih => simp [List.eraseIdx, ih]

/-- The value `setIsPlaying` receives when a `play()` promise settles. -/
theorem settle_isPlaying (s : Session) (i : Nat) (o : Outcome) (h : i < s.pending.length) :
    (settle s i o).isPlaying = decide (o = Outcome.resolved) := by
  unfold settle
  rw [if_pos h]
  cases o <;> rfl

theorem settle_currentStation (s : Session) (i : Nat) (o : Outcome) :
    (settle s i o).currentStation = s.currentStation := by
  unfold settle
  split <;> rfl

theorem playAndSettle_pause (s : Session) (st : Station) (o : Outcome)
    (ha : s.audioRef = true) (h : isCurrentAndPlaying s st = true) :
    playAndSettle s st o = { s with isPlaying := false } := by
  simp [playAndSettle, playStation, h, ha]

theorem playAndSettle_start (s : Session) (st : Station) (o : Outcome)
    (ha : s.audioRef = true) (h : isCurrentAndPlaying s st = false) :
    playAndSettle s st o =
      { s with currentStation := some st
               audioSrc := streamUrl st
               isPlaying := decide (o = Outcome.resolved) } := by
  simp only [playAndSettle, playStation, h, ha, if_true, Bool.false_eq_true, if_false,
    List.length_append, List.length_singleton, Nat.lt_add_one, Nat.add_sub_cancel, settle,
    eraseIdx_append_singleton]
  cases o <;> rfl

theorem isCurrentAndPlaying_of_same_id (s : Session) (st cur : Station)
    (hc : s.currentStation = some cur) (hid : cur.stationuuid = st.stationuuid) :
    isCurrentAndPlaying s st = s.isPlaying := by
  simp [isCurrentAndPlaying, hc, hid]

theorem current_of_isCurrentAndPlaying (s : Session) (st : Station)
    (h : isCurrentAndPlaying s st = true) :
    ∃ cur, s.currentStation = some cur ∧ cur.stationuuid = st.stationuuid := by
  unfold isCurrentAndPlaying at h
  cases hc : s.currentStation with
  | none => simp [hc] at h
  | some cur =>
    simp [hc] at h
    exact ⟨cur, rfl, h.1⟩

/-- The session after one `playAndSettle`: the element is still attached, the current station
has the id of the station played, and it is that very station when `isPlaying` is true. -/
theorem playAndSettle_first (s : Session) (st : Station) (o : Outcome)
    (ha : s.audioRef = true) :
    (playAndSettle s st o).audioRef = true ∧
    (∃ cur, (playAndSettle s st o).currentStation = some cur ∧
      cur.stationuuid = st.stationuuid) ∧
    ((playAndSettle s st o).isPlaying = true →
      (playAndSettle s st o).currentStation = some st) := by
  cases h : isCurrentAndPlaying s st with
  | true =>
    rw [playAndSettle_pause s st o ha h]
    exact ⟨ha, current_of_isCurrentAndPlaying s st h, fun hp => by simp at hp⟩
  | false =>
    rw [playAndSettle_start s st o ha h]
    exact ⟨ha, ⟨st, rfl, rfl⟩, fun _ => rfl⟩

/-- The second of two consecutive calls on the same station: a pause when the first call left
`isPlaying` true, a new attempt otherwise. -/
theorem playAndSettle_second (a : Session) (st : Station) (o : Outcome)
    (ha : a.audioRef = true)
    (hcur : ∃ cur, a.currentStation = some cur ∧ cur.stationuuid = st.stationuuid)
    (hst : a.isPlaying = true → a.currentStation = some st) :
    (playAndSettle a st o).currentStation = some st ∧
    (a.isPlaying = true → (playAndSettle a st o).isPlaying = false) ∧
    (a.isPlaying = false →
      (playAndSettle a st o).isPlaying = decide (o = Outcome.resolved)) := by
  obtain ⟨cur, hc, hid⟩ := hcur
  have hicp := isCurrentAndPlaying_of_same_id a st cur hc hid
  cases hp : a.isPlaying with
  | true =>
    rw [hp] at hicp
    rw [playAndSettle_pause a st o ha hicp]
    exact ⟨hst hp, fun _ => rfl, fun h => by simp at h⟩
  | false =>
    rw [hp] at hicp
    rw [playAndSettle_start a st o ha hicp]
    exact ⟨rfl, fun h => by simp at h, fun _ => rfl⟩

theorem playStation_switch (s : Session) (st1 st2 : Station)
    (ha : s.audioRef = true) (hne : st1.stationuuid ≠ st2.stationuuid)
    (hstart : isCurrentAndPlaying s st1 = false) :
    playStation (playStation s st1) st2 =
      { s with currentStation := some st2
               audioSrc := streamUrl st2
               pending := s.pending ++ [st1.stationuuid, st2.stationuuid] } := by
  have h1 : playStation s st1 =
      { s with currentStation := some st1
               audioSrc := streamUrl st1
               pending := s.pending ++ [st1.stationuuid] } := by
    simp [playStation, hstart, ha]
  rw [h1]
  simp [playStation, isCurrentAndPlaying, hne, ha]

theorem eraseIdx_append_pair_fst {α : Type} (l : List α) (x y : α) :
    (l ++ [x, y]).eraseIdx l.length = l ++ [y] := by
  induction l with
  | nil => rfl
  | cons a l ih => simp [List.eraseIdx, ih]

theorem eraseIdx_append_pair_snd {α : Type} (l : List α) (x y : α) :
    (l ++ [x, y]).eraseIdx (l.length + 1) = l ++ [x] := by
  induction l with
  | nil => rfl
  | cons a l ih => simp [List.eraseIdx, ih]

theorem settle_switch_first (s : Session) (u1 u2 : String) (o : Outcome) :
    settle { s with pending := s.pending ++ [u1, u2] } s.pending.length o =
      { s with pending := s.pending ++ [u2], isPlaying := decide (o = Outcome.resolved) } := by
  simp only [settle, List.length_append, List.length_cons, List.length_nil,
    eraseIdx_append_pair_fst]
  rw [if_pos (by omega)]
  cases o <;> rfl

theorem settle_switch_second (s : Session) (u1 u2 : String) (o : Outcome) :
    settle { s with pending := s.pending ++ [u1, u2] } (s.pending.length + 1) o =
      { s with pending := s.pending ++ [u1], isPlaying := decide (o = Outcome.resolved) } := by
  simp only [settle, List.length_append, List.length_cons, List.length_nil,
    eraseIdx_append_pair_snd]
  rw [if_pos (by omega)]
  cases o <;> rfl

theorem settle_last (s : Session) (u : String) (o : Outcome) :
    settle { s with pending := s.pending ++ [u] } s.pending.length o =
      { s with isPlaying := decide (o = Outcome.resolved) } := by
  simp only [settle, List.length_append, List.length_cons, List.length_nil,
    eraseIdx_append_singleton]
  rw [if_pos (by omega)]
  cases o <;> rfl


/-! ## Lemmas on the transition system -/

theorem playStation_currentStation (s : Session) (st : Station) :
    (playStation s st).currentStation = s.currentStation ∨
    (playStation s st).currentStation = some st := by
  unfold playStation
  split
  · split <;> exact Or.inl rfl
  · simp only
    split <;> exact Or.inr rfl

/-- No event clears the current station. -/
theorem step_keeps_currentStation (lower : String → String) (s : Session) (e : Event)
    (h : s.currentStation ≠ none) : (step lower s e).currentStation ≠ none := by
  cases e with
  | play station =>
    rcases playStation_currentStation s station with h' | h'
    · simp only [step]; rw [h']; exact h
    · simp only [step]; rw [h']; simp
  | settled i o => simp only [step]; rw [settle_currentStation]; exact h
  | audioError => exact h
  | setSearchTerm t => exact h
  | setFilterCountry c => exact h
  | toggleFavorite station => exact h
  | setVolume v =>
    simp only [step, setVolume, volumeEffect]
    split <;> exact h
  | toggleMute =>
    simp only [step, toggleMute, volumeEffect]
    split <;> exact h
  | stationsFetched response =>
    cases response <;> exact h
  | countriesFetched response =>
    cases response <;> exact h

theorem run_keeps_currentStation (lower : String → String) (events : List Event) :
    ∀ s : Session, s.currentStation ≠ none → (run lower s events).currentStation ≠ none := by
  induction events with
  | nil => intro s h; exact h
  | cons e es ih =>
    intro s h
    exact ih (step lower s e) (step_keeps_currentStation lower s e h)

/-- One event keeps the invariant: a session that is playing or has a `play()` promise in
flight has a current station. -/
theorem step_keeps_selected (lower : String → String) (s : Session) (e : Event)
    (h : (s.isPlaying = true ∨ s.pending ≠ []) → s.currentStation ≠ none) :
    ((step lower s e).isPlaying = true ∨ (step lower s e).pending ≠ []) →
      (step lower s e).currentStation ≠ none := by
  cases e with
  | play station =>
    simp only [step, playStation]
    split
    · split
      · intro h'
        apply h
        rcases h' with h' | h'
        · simp at h'
        · exact Or.inr h'
      · exact h
    · split <;> intro _ <;> simp
  | settled i o =>
    simp only [step, settle]
    split
    · rename_i hi
      intro _
      apply h
      right
      intro hp
      rw [hp] at hi
      exact absurd hi (Nat.not_lt_zero i)
    · exact h
  | audioError =>
    simp only [step, audioError]
    intro h'
    apply h
    rcases h' with h' | h'
    · simp at h'
    · exact Or.inr h'
  | setSearchTerm t => exact h
  | setFilterCountry c => exact h
  | toggleFavorite station => exact h
  | setVolume v =>
    simp only [step, setVolume, volumeEffect]
    split <;> exact h
  | toggleMute =>
    simp only [step, toggleMute, volumeEffect]
    split <;> exact h
  | stationsFetched response =>
    cases response <;> exact h
  | countriesFetched response =>
    cases response <;> exact h

theorem run_keeps_selected (lower : String → String) (events : List Event) :
    ∀ s : Session, ((s.isPlaying = true ∨ s.pending ≠ []) → s.currentStation ≠ none) →
      ((run lower s events).isPlaying = true ∨ (run lower s events).pending ≠ []) →
        (run lower s events).currentStation ≠ none := by
  induction events with
  | nil => intro s h; exact h
  | cons e es ih =>
    intro s h
    exact ih (step lower s e) (step_keeps_selected lower s e h)

/-! ## C3: playing the same station twice -/

/-- C3 as stated fails: from the initial session, `play(jazzFm)` whose attempt is rejected
leaves `isPlaying` false, and a second `play(jazzFm)` whose attempt is rejected leaves it false
again, not negated. -/
theorem play_twice_both_rejected_keeps_false :
    (playAndSettle initialSession jazzFm Outcome.rejected).isPlaying = false ∧
    (playAndSettle (playAndSettle initialSession jazzFm Outcome.rejected) jazzFm
        Outcome.rejected).isPlaying = false ∧
    (playAndSettle (playAndSettle initialSession jazzFm Outcome.rejected) jazzFm
        Outcome.rejected).isPlaying
      ≠ !(playAndSettle initialSession jazzFm Outcome.rejected).isPlaying := by
  decide

/-- C3, amended: with the audio element attached, when `play(st)` is called twice on the same
station and the attempt of each call (if it starts one) settles before the next call, the
current station has the id of `st` after the first call and is `st` after the second; a
session left playing by the first call is paused by the second; a session left not playing by
the first call gets a new attempt from the second and `isPlaying` is then true exactly when
that attempt resolves. So the value after the second call is the negation of the value after
the first unless the attempt of the second call is rejected. -/
theorem play_twice_toggles_unless_rejected (s : Session) (st : Station) (o1 o2 : Outcome)
    (ha : s.audioRef = true) :
    (∃ cur, (playAndSettle s st o1).currentStation = some cur ∧
      cur.stationuuid = st.stationuuid) ∧
    (playAndSettle (playAndSettle s st o1) st o2).currentStation = some st ∧
    ((playAndSettle s st o1).isPlaying = true →
      (playAndSettle (playAndSettle s st o1) st o2).isPlaying = false) ∧
    ((playAndSettle s st o1).isPlaying = false →
      (playAndSettle (playAndSettle s st o1) st o2).isPlaying
        = decide (o2 = Outcome.resolved)) ∧
    (((playAndSettle s st o1).isPlaying = false → o2 = Outcome.resolved) →
      (playAndSettle (playAndSettle s st o1) st o2).isPlaying
        = !(playAndSettle s st o1).isPlaying) := by
  obtain ⟨ha1, hcur, hst⟩ := playAndSettle_first s st o1 ha
  obtain ⟨hc2, hpause, hstart⟩ := playAndSettle_second (playAndSettle s st o1) st o2 ha1 hcur hst
  refine ⟨hcur, hc2, hpause, hstart, ?_⟩
  intro ho
  cases hp : (playAndSettle s st o1).isPlaying with
  | true => rw [hpause hp]; rfl
  | false => rw [hstart hp, ho hp]; rfl

/-- Witness of C3, amended: from the initial session with both attempts resolving, the first
call leaves `isPlaying` true and the second pauses. -/
theorem play_twice_toggles_unless_rejected_witness :
    (playAndSettle initialSession jazzFm Outcome.resolved).isPlaying = true ∧
    (playAndSettle (playAndSettle initialSession jazzFm Outcome.resolved) jazzFm
        Outcome.resolved).isPlaying = false ∧
    (playAndSettle (playAndSettle initialSession jazzFm Outcome.resolved) jazzFm
        Outcome.resolved).currentStation = some jazzFm :=
  have h := play_twice_toggles_unless_rejected initialSession jazzFm Outcome.resolved
    Outcome.resolved rfl
  ⟨by decide, h.2.2.1 (by decide), h.2.1⟩

/-! ## C4: switching stations while an attempt is in flight -/

/-- C4 as stated fails: while `jazzFm` plays, `play(newsOne)` and then `play(rockFm)` are
called; `rockFm` is the current station and `isPlaying` is true, yet the rejection of the
attempt for `newsOne` sets `isPlaying` to false; and when the attempt for `rockFm` resolves
first and the one for `newsOne` is rejected after it, the session ends not playing although the
attempt for `rockFm` resolved. -/
theorem stale_rejection_overwrites_isPlaying :
    (playStation (playStation jazzPlaying newsOne) rockFm).currentStation = some rockFm ∧
    (playStation (playStation jazzPlaying newsOne) rockFm).pending
      = ["uuid-news", "uuid-rock"] ∧
    (playStation (playStation jazzPlaying newsOne) rockFm).isPlaying = true ∧
    (settle (playStation (playStation jazzPlaying newsOne) rockFm) 0
      Outcome.rejected).isPlaying = false ∧
    (settle (playStation (playStation jazzPlaying newsOne) rockFm) 1
      Outcome.resolved).isPlaying = true ∧
    (settle (settle (playStation (playStation jazzPlaying newsOne) rockFm) 1
      Outcome.resolved) 0 Outcome.rejected).isPlaying = false := by
  decide

/-- C4, amended: with the audio element attached, when `play(st1)` starts an attempt and
`play(st2)` for a station with another id is called while that attempt is in flight, `st2` is
the current station from then on whatever the two outcomes and their order, and both attempts
are in flight; the outcome of the attempt for `st1` is applied to `isPlaying` like any other;
`isPlaying` ends as the outcome that arrives last, which is the outcome for `st2` when the
outcome for `st1` arrives first. -/
theorem play_switch_last_outcome_wins (s : Session) (st1 st2 : Station)
    (ha : s.audioRef = true) (hne : st1.stationuuid ≠ st2.stationuuid)
    (hstart : isCurrentAndPlaying s st1 = false) (o1 o2 : Outcome) :
    (playStation (playStation s st1) st2).currentStation = some st2 ∧
    (playStation (playStation s st1) st2).isPlaying = s.isPlaying ∧
    (playStation (playStation s st1) st2).pending
      = s.pending ++ [st1.stationuuid, st2.stationuuid] ∧
    (settle (playStation (playStation s st1) st2) s.pending.length o1).isPlaying
      = decide (o1 = Outcome.resolved) ∧
    (settle (settle (playStation (playStation s st1) st2) s.pending.length o1)
      s.pending.length o2).currentStation = some st2 ∧
    (settle (settle (playStation (playStation s st1) st2) s.pending.length o1)
      s.pending.length o2).isPlaying = decide (o2 = Outcome.resolved) ∧
    (settle (settle (playStation (playStation s st1) st2) (s.pending.length + 1) o2)
      s.pending.length o1).currentStation = some st2 ∧
    (settle (settle (playStation (playStation s st1) st2) (s.pending.length + 1) o2)
      s.pending.length o1).isPlaying = decide (o1 = Outcome.resolved) := by
  rw [playStation_switch s st1 st2 ha hne hstart]
  have e1 := settle_switch_first
    { s with currentStation := some st2, audioSrc := streamUrl st2 }
    st1.stationuuid st2.stationuuid o1
  have e2 := settle_switch_second
    { s with currentStation := some st2, audioSrc := streamUrl st2 }
    st1.stationuuid st2.stationuuid o2
  simp only at e1 e2
  rw [e1, e2]
  have e3 := settle_last
    { s with currentStation := some st2, audioSrc := streamUrl st2,
             isPlaying := decide (o1 = Outcome.resolved) }
    st2.stationuuid o2
  have e4 := settle_last
    { s with currentStation := some st2, audioSrc := streamUrl st2,
             isPlaying := decide (o2 = Outcome.resolved) }
    st1.stationuuid o1
  simp only at e3 e4
  rw [e3, e4]
  exact ⟨rfl, rfl, rfl, rfl, rfl, rfl, rfl, rfl⟩

/-- Witness of C4, amended: from the initial session, `play(jazzFm)` then `play(rockFm)`, the
attempt for `jazzFm` rejected first and the attempt for `rockFm` resolved last: `rockFm` is
current and playing. -/
theorem play_switch_last_outcome_wins_witness :
    (settle (settle (playStation (playStation initialSession jazzFm) rockFm) 0
      Outcome.rejected) 0 Outcome.resolved).currentStation = some rockFm ∧
    (settle (settle (playStation (playStation initialSession jazzFm) rockFm) 0
      Outcome.rejected) 0 Outcome.resolved).isPlaying = true :=
  have h := play_switch_last_outcome_wins initialSession jazzFm rockFm rfl (by decide)
    (by decide) Outcome.rejected Outcome.resolved
  ⟨h.2.2.2.2.1, h.2.2.2.2.2.1⟩

/-! ## C8: a playing session has a station -/

/-- C8: from every session that is not playing and has no attempt in flight (the initial
session is one), after every sequence of events (play, settlement of an attempt as resolved or
rejected, audio error, search, country filter, favourite, volume, mute, fetch results),
`isPlaying = true` implies that a current station is set; and from any session whatever, a
current station that is set stays set after every sequence of events; a rejected attempt and
an audio error leave the current station as it is. -/
theorem playing_implies_station_selected (lower : String → String) (s0 : Session)
    (hidle : s0.isPlaying = false) (hnone : s0.pending = []) (events : List Event) :
    ((run lower s0 events).isPlaying = true → (run lower s0 events).currentStation ≠ none) ∧
    (∀ (s : Session) (more : List Event), s.currentStation ≠ none →
      (run lower s more).currentStation ≠ none) ∧
    (∀ (s : Session) (i : Nat),
      (settle s i Outcome.rejected).currentStation = s.currentStation) ∧
    (∀ s : Session, (audioError s).currentStation = s.currentStation) := by
  refine ⟨?_, ?_, ?_, ?_⟩
  · intro hp
    apply run_keeps_selected lower events s0
    · intro h
      rcases h with h | h
      · rw [hidle] at h
        exact absurd h (by decide)
      · exact absurd hnone h
    · exact Or.inl hp
  · intro s more h
    exact run_keeps_currentStation lower more s h
  · intro s i
    exact settle_currentStation s i Outcome.rejected
  · intro s
    rfl

/-- Witness of C8: after `play(jazzFm)` and the resolution of its attempt the session is
playing, and a station is selected. -/
theorem playing_implies_station_selected_witness :
    (run asciiLower initialSession
      [Event.play jazzFm, Event.settled 0 Outcome.resolved]).isPlaying = true ∧
    (run asciiLower initialSession
      [Event.play jazzFm, Event.settled 0 Outcome.resolved]).currentStation ≠ none :=
  ⟨by decide,
    (playing_implies_station_selected asciiLower initialSession rfl rfl
      [Event.play jazzFm, Event.settled 0 Outcome.resolved]).1 (by decide)⟩


/-! ## The relay -/

theorem GET_of_falsy {J : Type} (fetch : String → Option UpstreamResponse)
    (parse : String → Option J) (stringify : J → String) (endpoint : Option String)
    (h : endpoint = none ∨ endpoint = some "") :
    GET fetch parse stringify endpoint = ⟨⟨400, [], "Missing endpoint parameter"⟩, []⟩ := by
  rcases h with h | h <;> subst h <;> rfl

theorem GET_of_reply {J : Type} (fetch : String → Option UpstreamResponse)
    (parse : String → Option J) (stringify : J → String) (e : String) (r : UpstreamResponse)
    (data : J) (he : e ≠ "") (hf : fetch (upstreamBase ++ e) = some r)
    (hp : parse r.body = some data) :
    GET fetch parse stringify (some e) =
      ⟨⟨200, [("Content-Type", "application/json"), ("Access-Control-Allow-Origin", "*")],
         stringify data⟩, [upstreamBase ++ e]⟩ := by
  have ht : truthy e = true := (truthy_eq_true_iff e).mpr he
  simp [GET, ht, hf, hp]

theorem GET_of_failure {J : Type} (fetch : String → Option UpstreamResponse)
    (parse : String → Option J) (stringify : J → String) (e : String) (he : e ≠ "")
    (h : fetch (upstreamBase ++ e) = none ∨
      ∃ r, fetch (upstreamBase ++ e) = some r ∧ parse r.body = none) :
    GET fetch parse stringify (some e) = ⟨failedResponse, [upstreamBase ++ e]⟩ := by
  have ht : truthy e = true := (truthy_eq_true_iff e).mpr he
  rcases h with h | ⟨r, hr, hp⟩
  · simp [GET, ht, h]
  · simp [GET, ht, hr, hp]

/-! ## C5: what the relay returns for an upstream reply -/

/-- C5 as stated fails: the upstream replies with status 404 and the JSON body `[]`; the relay
answers with status 200. -/
theorem GET_upstream_404_gives_200 :
    replyWith 404 (upstreamBase ++ "/json/stations/byuuid/none") = some ⟨404, "[]"⟩ ∧
    parseEmptyArray "[]" = some [] ∧
    (GET (replyWith 404) parseEmptyArray stringifyList
      (some "/json/stations/byuuid/none")).response.status = 200 ∧
    (GET (replyWith 404) parseEmptyArray stringifyList
      (some "/json/stations/byuuid/none")).response.status ≠ 404 := by
  decide

/-- C5, amended: for every relay request whose endpoint parameter is present and not empty,
when the upstream replies with any status `k` and a body that decodes as JSON to `data`, the
relay fetches the upstream host followed by the endpoint and answers with status 200, the
headers `Content-Type: application/json` and `Access-Control-Allow-Origin: *`, and the body
`JSON.stringify(data)`; when decoding undoes serialising, that body decodes to the value the
upstream body decodes to. -/
theorem GET_reply_is_200_with_json {J : Type} (fetch : String → Option UpstreamResponse)
    (parse : String → Option J) (stringify : J → String) (e : String) (k : Nat)
    (body : String) (data : J) (he : e ≠ "")
    (hf : fetch (upstreamBase ++ e) = some ⟨k, body⟩) (hp : parse body = some data) :
    (GET fetch parse stringify (some e)).response.status = 200 ∧
    (GET fetch parse stringify (some e)).response.headers
      = [("Content-Type", "application/json"), ("Access-Control-Allow-Origin", "*")] ∧
    (GET fetch parse stringify (some e)).response.body = stringify data ∧
    (GET fetch parse stringify (some e)).fetched = [upstreamBase ++ e] ∧
    ((∀ d, parse (stringify d) = some d) →
      parse (GET fetch parse stringify (some e)).response.body = parse body) := by
  rw [GET_of_reply fetch parse stringify e ⟨k, body⟩ data he hf hp]
  refine ⟨rfl, rfl, rfl, rfl, ?_⟩
  intro hround
  rw [hp]
  exact hround data

/-- Witness of C5, amended: an upstream reply with status 404 and body `[]` is relayed with
status 200 and body `[]`. -/
theorem GET_reply_is_200_with_json_witness :
    (GET (replyWith 404) parseEmptyArray stringifyList
      (some "/json/stations/byuuid/none")).response.status = 200 ∧
    (GET (replyWith 404) parseEmptyArray stringifyList
      (some "/json/stations/byuuid/none")).response.body = "[]" :=
  have h := GET_reply_is_200_with_json (replyWith 404) parseEmptyArray stringifyList
    "/json/stations/byuuid/none" 404 "[]" [] (by decide) rfl rfl
  ⟨h.1, h.2.2.1⟩

/-! ## C6: the three cases of the relay -/

/-- C6 as stated fails: the request `?endpoint=` carries the parameter with an empty value;
the upstream fetch and the decoding would succeed, yet the relay answers 400 and makes no
upstream call. -/
theorem GET_empty_endpoint_gives_400 :
    replyWith 200 (upstreamBase ++ "") = some ⟨200, "[]"⟩ ∧
    parseEmptyArray "[]" = some [] ∧
    (GET (replyWith 200) parseEmptyArray stringifyList (some "")).response.status = 400 ∧
    (GET (replyWith 200) parseEmptyArray stringifyList (some "")).response.status ≠ 200 ∧
    (GET (replyWith 200) parseEmptyArray stringifyList (some "")).fetched = [] := by
  decide

/-- C6, amended: `GET` is a total function whose result falls in exactly three cases. The
endpoint parameter is missing or empty: status 400, the plain text
`Missing endpoint parameter`, no header given and no upstream call. Otherwise the fetch and
the JSON decoding both succeed: status 200, `Content-Type: application/json`,
`Access-Control-Allow-Origin: *`, and the serialised upstream JSON as body. Otherwise (the
fetch rejects or the body is not JSON): status 500, `Content-Type: application/json`, and the
body `{"error":"Failed to fetch"}`. -/
theorem GET_three_cases {J : Type} (fetch : String → Option UpstreamResponse)
    (parse : String → Option J) (stringify : J → String) (endpoint : Option String) :
    ((endpoint = none ∨ endpoint = some "") →
      GET fetch parse stringify endpoint
        = ⟨⟨400, [], "Missing endpoint parameter"⟩, []⟩) ∧
    (∀ e r data, endpoint = some e → e ≠ "" → fetch (upstreamBase ++ e) = some r →
      parse r.body = some data →
      (GET fetch parse stringify endpoint).response
        = ⟨200, [("Content-Type", "application/json"), ("Access-Control-Allow-Origin", "*")],
            stringify data⟩) ∧
    (∀ e, endpoint = some e → e ≠ "" →
      (fetch (upstreamBase ++ e) = none ∨
        ∃ r, fetch (upstreamBase ++ e) = some r ∧ parse r.body = none) →
      (GET fetch parse stringify endpoint).response
        = ⟨500, [("Content-Type", "application/json")],
            "\x7b\"error\":\"Failed to fetch\"\x7d"⟩) ∧
    ((GET fetch parse stringify endpoint).response.status = 400 ∨
      (GET fetch parse stringify endpoint).response.status = 200 ∨
      (GET fetch parse stringify endpoint).response.status = 500) := by
  refine ⟨GET_of_falsy fetch parse stringify endpoint, ?_, ?_, ?_⟩
  · intro e r data hen he hf hp
    subst hen
    rw [GET_of_reply fetch parse stringify e r data he hf hp]
  · intro e hen he hfail
    subst hen
    rw [GET_of_failure fetch parse stringify e he hfail]
    rfl
  · cases endpoint with
    | none => exact Or.inl rfl
    | some e =>
      by_cases he : e = ""
      · subst he
        exact Or.inl rfl
      · cases hf : fetch (upstreamBase ++ e) with
        | none =>
          rw [GET_of_failure fetch parse stringify e he (Or.inl hf)]
          exact Or.inr (Or.inr rfl)
        | some r =>
          cases hp : parse r.body with
          | none =>
            rw [GET_of_failure fetch parse stringify e he (Or.inr ⟨r, hf, hp⟩)]
            exact Or.inr (Or.inr rfl)
          | some data =>
            rw [GET_of_reply fetch parse stringify e r data he hf hp]
            exact Or.inr (Or.inl rfl)

/-- Witness of C6, amended: a missing parameter gives 400, a decodable reply gives 200, and a
fetch that rejects gives 500. -/
theorem GET_three_cases_witness :
    (GET (replyWith 200) parseEmptyArray stringifyList none).response.status = 400 ∧
    (GET (replyWith 200) parseEmptyArray stringifyList
      (some "/json/stations/topvote/100")).response
      = ⟨200, [("Content-Type", "application/json"), ("Access-Control-Allow-Origin", "*")],
          "[]"⟩ ∧
    (GET (fun _ => none) parseEmptyArray stringifyList
      (some "/json/stations/topvote/100")).response.status = 500 :=
  ⟨congrArg (fun r => r.response.status)
      ((GET_three_cases (replyWith 200) parseEmptyArray stringifyList none).1 (Or.inl rfl)),
    (GET_three_cases (replyWith 200) parseEmptyArray stringifyList
      (some "/json/stations/topvote/100")).2.1
      "/json/stations/topvote/100" ⟨200, "[]"⟩ [] rfl (by decide) rfl rfl,
    congrArg (fun r => r.status)
      ((GET_three_cases (fun _ => none) parseEmptyArray stringifyList
        (some "/json/stations/topvote/100")).2.2.1
        "/json/stations/topvote/100" rfl (by decide) (Or.inl rfl))⟩

end WorldRadio
